import Mathlib

/-!
# spectet: a shallow embedding of `main.go`

The agent fetches a batch of monitoring tasks, runs one protocol checker per
task and posts the boolean outcome.  Everything the program asks of the
network or of a library (`net`, `net/http`, `encoding/json`, `go-fastping`)
is answered by a record `Env` of oracles; what the program does to the outside
is recorded in an explicit `World` that is threaded through every function:
the handles of open network resources, the calls made so far, and the lines
written to the log and to standard output.  A Go run-time panic is an
explicit outcome.
-/

namespace Spectet

/-! ## Constants and the data model -/

def TasksApiURL : String := "https://isaak.dev/index.json"
def CreateTaskApiURL : String := "https://httpbin.org/post"
def PacketBodyMessage : String := "Spectet Healtcheck"

/-- The struct `Task`; `Port` is a `uint16`. -/
structure Task where
  TaskId : String
  TaskType : String
  Hostname : String
  Port : Fin 65536
  deriving DecidableEq, Repr

abbrev Tasks := List Task

/-- A value of Go type `any` as the program uses it: a string or a bool. -/
inductive GoAny where
  | str (s : String)
  | bool (b : Bool)
  deriving DecidableEq, Repr

/-! ## The outside world -/

/-- An `*http.Response`: its status code and what `ioutil.ReadAll` obtains
from its body. -/
structure Response where
  StatusCode : Int
  Body : String
  deriving DecidableEq, Repr

/-- What `http.Get` / `http.Post` hand back.  `ok`: a response and a nil
error, the body open.  `failed`: a non-nil error; the response is nil except
when the redirect policy failed, and then its body is already closed. -/
inductive HttpResult where
  | ok (resp : Response)
  | failed (resp : Option Response) (err : String)
  deriving DecidableEq, Repr

/-- A callback the pinger fires during `Run`: `OnRecv` with the address and
round-trip time (already formatted), or `OnIdle`. -/
inductive PingEvent where
  | recv (addr : String) (rtt : String)
  | idle
  deriving DecidableEq, Repr

/-- The answers of the network and of the library calls whose code is not
part of the program.  An `Except.error` carries the Go error's text. -/
structure Env where
  /-- The call `net.Dial("tcp", address)`. -/
  dialTCP : String → Except String Unit
  /-- The call `net.ResolveUDPAddr("udp", address)`. -/
  resolveUDPAddr : String → Except String String
  /-- The call `net.DialUDP("udp", nil, raddr)` for a non-nil `raddr`. -/
  dialUDP : String → Except String Unit
  /-- The call `connection.Write(message)`: the number of bytes written. -/
  writeUDP : String → List Nat → Except String Nat
  /-- The datagram that `connection.ReadFromUDP` receives from the peer, or the
  error of the read.  No read deadline is set, so a read that never completes
  has no outcome and is not represented. -/
  replyUDP : String → Except String (List Nat)
  /-- The call `http.Get(uri)`. -/
  get : String → HttpResult
  /-- The call `http.Post(url, contentType, body)`; the body is the JSON object
  as its members in serialisation order. -/
  post : String → String → List (String × GoAny) → HttpResult
  /-- The call `net.LookupIP(host)`. -/
  lookupIP : String → Except String (List String)
  /-- The call `net.LookupCNAME(host)`. -/
  lookupCNAME : String → Except String String
  /-- The call `net.LookupNS(host)`. -/
  lookupNS : String → Except String (List String)
  /-- The call `net.ResolveIPAddr("ip:icmp", host)`. -/
  resolveIPAddr : String → Except String String
  /-- The call `pinger.Run()` for the one added address: the callbacks it
  fires, in order, and the error it returns. -/
  pingRun : String → List PingEvent × Option String
  /-- The call `json.Unmarshal(body, &result)`: what it leaves in `result`
  and the error it returns. -/
  unmarshal : String → Tasks × Option String

/-- A call the program made to the outside. -/
inductive NetOp where
  | dialTCP (address : String)
  | resolveUDPAddr (address : String)
  | dialUDP (raddr : Option String)
  | writeUDP (payload : List Nat)
  | readUDP (capacity : Nat)
  | close (handle : Nat)
  | get (uri : String)
  | post (url : String) (contentType : String) (body : List (String × GoAny))
  | lookupIP (host : String)
  | lookupCNAME (host : String)
  | lookupNS (host : String)
  | resolveIPAddr (host : String)
  | pingRun (addr : String)
  deriving DecidableEq, Repr

/-- The observable state: open network resources (sockets, connections,
response bodies) by handle, the next fresh handle, the calls made, the lines
of the standard logger and of standard output. -/
structure World where
  opened : List Nat
  next : Nat
  trace : List NetOp
  logged : List String
  stdout : List String
  deriving DecidableEq, Repr

def World.init : World := ⟨[], 0, [], [], []⟩

def World.call (w : World) (op : NetOp) : World :=
  { w with trace := w.trace ++ [op] }

/-- A resource is opened under a fresh handle. -/
def World.acquire (w : World) : Nat × World :=
  (w.next, { w with opened := w.next :: w.opened, next := w.next + 1 })

def World.release (w : World) (h : Nat) : World :=
  { w with opened := w.opened.erase h, trace := w.trace ++ [NetOp.close h] }

def World.log (w : World) (line : String) : World :=
  { w with logged := w.logged ++ [line] }

def World.print (w : World) (line : String) : World :=
  { w with stdout := w.stdout ++ [line] }

/-- How a Go call ends: it returns a value, or it panics. -/
inductive Outcome (α : Type) where
  | ret (val : α) (w : World)
  | panic (msg : String) (w : World)
  deriving DecidableEq, Repr

def nilDeref : String :=
  "runtime error: invalid memory address or nil pointer dereference"

/-! ## Library helpers used by the program -/

/-- The bytes of `[]byte(s)`: the UTF-8 encoding of `s`. -/
def bytesOf (s : String) : List Nat :=
  s.toList.flatMap fun c => (String.utf8EncodeChar c).map UInt8.toNat

/-- The length `len(s)` of a Go string: its length in bytes. -/
def len (s : String) : Nat := s.utf8ByteSize

/-- The test `strings.HasPrefix(s, p)`.  Go compares bytes; on well-formed
UTF-8 a prefix of the bytes is a prefix of the characters. -/
def HasPrefix (s p : String) : Bool := p.toList.isPrefixOf s.toList

/-- The text of `strconv.FormatUint(uint64(port), 10)`. -/
def FormatUint (port : Fin 65536) : String := Nat.repr port.val

/-- The text of `%t`. -/
def fmtBool (b : Bool) : String := if b then "true" else "false"

/-- A Go `map[string]any`: at most one entry per key. -/
abbrev GoMap := List (String × GoAny)

/-- The assignment `m[k] = v`: the entry of `k` is replaced, or added. -/
def GoMap.set : GoMap → String → GoAny → GoMap
  | [], k, v => [(k, v)]
  | (k', v') :: m, k, v => if k' = k then (k, v) :: m else (k', v') :: GoMap.set m k v

def GoMap.lookup : GoMap → String → Option GoAny
  | [], _ => none
  | (k', v') :: m, k => if k' = k then some v' else GoMap.lookup m k

def GoMap.keys (m : GoMap) : List String := m.map Prod.fst

/-- The order `<` of Go strings on their characters: bytewise on the UTF-8
encodings, which is the order of the code points. -/
def lessChars : List Char → List Char → Bool
  | _, [] => false
  | [], _ :: _ => true
  | a :: as, b :: bs =>
    if a.toNat < b.toNat then true
    else if b.toNat < a.toNat then false
    else lessChars as bs

def insertByKey (e : String × GoAny) : List (String × GoAny) → List (String × GoAny)
  | [] => [e]
  | x :: xs => if lessChars e.1.toList x.1.toList then e :: x :: xs else x :: insertByKey e xs

/-- The object `json.Marshal(report)` writes: the members of the map in
increasing order of their keys. -/
def Marshal (m : GoMap) : List (String × GoAny) :=
  m.foldr insertByKey []

/-- A non-nil `*http.Response` in the program's hands: the response and the
handle of its body while that is open. -/
structure RespRef where
  resp : Response
  body : Option Nat
  deriving DecidableEq, Repr

/-- The pair `(response, err)` of an HTTP call, and the world after it. -/
def httpResult (r : HttpResult) (w : World) : Option RespRef × Option String × World :=
  match r with
  | .ok resp => let (h, w) := w.acquire; (some ⟨resp, some h⟩, none, w)
  | .failed (some resp) e => (some ⟨resp, none⟩, some e, w)
  | .failed none e => (none, some e, w)

def httpGet (env : Env) (uri : String) (w : World) : Option RespRef × Option String × World :=
  httpResult (env.get uri) (w.call (.get uri))

def httpPost (env : Env) (url contentType : String) (body : List (String × GoAny)) (w : World) :
    Option RespRef × Option String × World :=
  httpResult (env.post url contentType body) (w.call (.post url contentType body))

/-- The call `ioutil.ReadAll(response.Body)`: the body's bytes, nothing when
the body is already closed. -/
def ReadAll (r : RespRef) : String :=
  match r.body with
  | some _ => r.resp.Body
  | none => ""

/-- The call `response.Body.Close()`. -/
def closeBody (r : RespRef) (w : World) : World :=
  match r.body with
  | some h => w.release h
  | none => w

/-- The call `net.Dial("tcp", address)`: a connection (its handle) or an error. -/
def Dial (env : Env) (address : String) (w : World) : Option Nat × Option String × World :=
  let w := w.call (.dialTCP address)
  match env.dialTCP address with
  | .ok _ => let (h, w) := w.acquire; (some h, none, w)
  | .error e => (none, some e, w)

def ResolveUDPAddr (env : Env) (address : String) (w : World) :
    Option String × Option String × World :=
  let w := w.call (.resolveUDPAddr address)
  match env.resolveUDPAddr address with
  | .ok a => (some a, none, w)
  | .error e => (none, some e, w)

/-- A non-nil `*net.UDPConn`. -/
structure UDPConn where
  handle : Nat
  raddr : String
  deriving DecidableEq, Repr

/-- The call `net.DialUDP("udp", nil, raddr)`; a nil `raddr` is refused with
"missing address", and every error comes with a nil connection. -/
def DialUDP (env : Env) (raddr : Option String) (w : World) :
    Option UDPConn × Option String × World :=
  let w := w.call (.dialUDP raddr)
  match raddr with
  | none => (none, some "dial udp: missing address", w)
  | some a =>
    match env.dialUDP a with
    | .ok _ => let (h, w) := w.acquire; (some ⟨h, a⟩, none, w)
    | .error e => (none, some e, w)

def Write (env : Env) (c : UDPConn) (message : List Nat) (w : World) :
    Nat × Option String × World :=
  let w := w.call (.writeUDP message)
  match env.writeUDP c.raddr message with
  | .ok n => (n, none, w)
  | .error e => (0, some e, w)

/-- The call `connection.ReadFromUDP(buf)`: one datagram is received and its
first `len(buf)` bytes are copied into `buf`, the rest of the datagram is
dropped; the count returned is the number of bytes copied. -/
def ReadFromUDP (env : Env) (c : UDPConn) (buf : List Nat) (w : World) :
    Nat × Option String × World :=
  let w := w.call (.readUDP buf.length)
  match env.replyUDP c.raddr with
  | .ok datagram => (min datagram.length buf.length, none, w)
  | .error e => (0, some e, w)

/-! ## The program -/

/-- The URI `CheckHTTP` requests for a hostname. -/
def requestURI (Hostname : String) : String :=
  let uri := Hostname
  if !HasPrefix uri "https://" then "https://" ++ uri ++ "/" else uri

def CheckHTTP (env : Env) (task : Task) (w : World) : Outcome Bool :=
  let uri := requestURI task.Hostname
  let (response, err, w) := httpGet env uri w
  if err.isSome then .ret false w else
  match response with
  | none => .panic nilDeref w
  | some r => .ret (decide (r.resp.StatusCode ≥ 200) && decide (r.resp.StatusCode < 300)) w

def CheckUDP (env : Env) (task : Task) (w : World) : Outcome Bool :=
  let port := FormatUint task.Port
  let address := task.Hostname ++ ":" ++ port
  let (RemoteAddr, _, w) := ResolveUDPAddr env address w
  let (connection, err, w) := DialUDP env RemoteAddr w
  -- `defer connection.Close()`: the receiver is evaluated here
  match connection with
  | none => .panic nilDeref w
  | some conn =>
    if err.isSome then .ret false (w.release conn.handle) else
    let message := bytesOf PacketBodyMessage
    let (_, err, w) := Write env conn message w
    if err.isSome then .ret false (w.release conn.handle) else
    let buf := List.replicate (len PacketBodyMessage) 0
    let (amountByte, err, w) := ReadFromUDP env conn buf w
    if err.isSome then .ret false (w.release conn.handle) else
    .ret (decide (message.length = amountByte)) (w.release conn.handle)

def CheckTCP (env : Env) (task : Task) (w : World) : Outcome Bool :=
  let port := FormatUint task.Port
  let address := task.Hostname ++ ":" ++ port
  let (_, err, w) := Dial env address w
  if err.isSome then .ret false w else .ret true w

def CheckDNS (env : Env) (task : Task) (w : World) : Outcome Bool :=
  let w := w.call (.lookupIP task.Hostname)
  match env.lookupIP task.Hostname with
  | .error _ => .ret false w
  | .ok ips =>
    if ips.length = 0 then .ret false w else
    let w := w.call (.lookupCNAME task.Hostname)
    match env.lookupCNAME task.Hostname with
    | .error _ => .ret false w
    | .ok cname =>
      if len cname = 0 then .ret false w else
      let w := w.call (.lookupNS task.Hostname)
      match env.lookupNS task.Hostname with
      | .error _ => .ret false w
      | .ok nameserver =>
        if nameserver.length = 0 then .ret false w else .ret true w

/-- One callback of the pinger, run on the captured variable `icmpStatus`. -/
def onPing (s : Bool × World) (ev : PingEvent) : Bool × World :=
  match ev with
  | .recv addr rtt => (true, s.2.print ("IP Addr: " ++ addr ++ " receive, RTT: " ++ rtt ++ "\n"))
  | .idle => (true, s.2.print "ICMP Checked!\n")

def CheckICMP (env : Env) (task : Task) (w : World) : Outcome Bool :=
  let w := w.call (.resolveIPAddr task.Hostname)
  match env.resolveIPAddr task.Hostname with
  | .error e => .ret false (w.print (e ++ "\n"))
  | .ok resolvedAddress =>
    let icmpStatus := false
    let w := w.call (.pingRun resolvedAddress)
    let (events, err) := env.pingRun resolvedAddress
    let (icmpStatus, w) := events.foldl onPing (icmpStatus, w)
    match err with
    | some e => .ret false (w.print (e ++ "\n"))
    | none => .ret icmpStatus w

/-- The line `Perform` hands to the logger. -/
def logLine (task : Task) (status : Bool) : String :=
  task.Hostname ++ " over " ++ task.TaskType ++ " is accesesible: " ++ fmtBool status ++ "\n"

def Perform (env : Env) (task : Task) (w : World) : Outcome Bool :=
  let r : Outcome Bool :=
    if task.TaskType = "tcp" then CheckTCP env task w
    else if task.TaskType = "http" then CheckHTTP env task w
    else if task.TaskType = "udp" then CheckUDP env task w
    else if task.TaskType = "resolve" then CheckDNS env task w
    else if task.TaskType = "icmp" then CheckICMP env task w
    else .ret false w
  match r with
  | .ret status w => .ret status (w.log (logLine task status))
  | .panic msg w => .panic msg w

/-- The map literal of `SaveReport`. -/
def reportOf (task : Task) (result : GoAny) : GoMap :=
  (GoMap.set [] "task_id" (.str task.TaskId)).set task.TaskType result

def SaveReport (env : Env) (task : Task) (result : GoAny) (w : World) : Outcome Unit :=
  let report := reportOf task result
  let jsonData := Marshal report
  let (_, err, w) := httpPost env CreateTaskApiURL "application/json" jsonData w
  if err.isSome then .ret () w else .ret () w

def FetchTasks (env : Env) (w : World) : Outcome Tasks :=
  let (response, err, w) := httpGet env TasksApiURL w
  let w := if err.isSome then w.log "No response from request\n" else w
  -- `defer response.Body.Close()`: `response.Body` is evaluated here
  match response with
  | none => .panic nilDeref w
  | some r =>
    let body := ReadAll r
    let (result, uerr) := env.unmarshal body
    let w := if uerr.isSome then w.log "Can not unmarshal JSON\n" else w
    .ret result (closeBody r w)

/-- The loop of `main` over the fetched batch. -/
def runTasks (env : Env) : Tasks → World → Outcome Unit
  | [], w => .ret () w
  | task :: rest, w =>
    match Perform env task w with
    | .panic msg w => .panic msg w
    | .ret report w =>
      match SaveReport env task (.bool report) w with
      | .panic msg w => .panic msg w
      | .ret _ w => runTasks env rest w

def main (env : Env) (w : World) : Outcome Unit :=
  match FetchTasks env w with
  | .panic msg w => .panic msg w
  | .ret tasks w => runTasks env tasks w

/-! ## Observers and sample inputs -/

/-- The claim's words "carries a scheme prefix", read as: a URI scheme name
(a letter, then letters, digits, `+`, `-`, `.`) followed by `://`. -/
def carriesScheme (h : String) : Bool :=
  let cs := h.toList
  let name := cs.takeWhile fun c => c.isAlphanum || c == '+' || c == '-' || c == '.'
  match name with
  | [] => false
  | c :: _ => c.isAlpha && "://".toList.isPrefixOf (cs.drop name.length)

/-- A network on which nothing answers: every call reports an error. -/
def deadEnv : Env where
  dialTCP := fun _ => .error "connection refused"
  resolveUDPAddr := fun _ => .error "no such host"
  dialUDP := fun _ => .error "network is unreachable"
  writeUDP := fun _ _ => .error "connection refused"
  replyUDP := fun _ => .error "connection refused"
  get := fun _ => .failed none "connection refused"
  post := fun _ _ _ => .failed none "connection refused"
  lookupIP := fun _ => .error "no such host"
  lookupCNAME := fun _ => .error "no such host"
  lookupNS := fun _ => .error "no such host"
  resolveIPAddr := fun _ => .error "no such host"
  pingRun := fun _ => ([], some "operation not permitted")
  unmarshal := fun _ => ([], some "unexpected end of JSON input")

/-- A network on which every host resolves and accepts connections, the UDP
peer answers with the datagram `reply`, and web servers answer `status`. -/
def liveEnv (reply : List Nat) (status : Int) : Env where
  dialTCP := fun _ => .ok ()
  resolveUDPAddr := fun a => .ok a
  dialUDP := fun _ => .ok ()
  writeUDP := fun _ m => .ok m.length
  replyUDP := fun _ => .ok reply
  get := fun _ => .ok ⟨status, "[]"⟩
  post := fun _ _ _ => .ok ⟨status, ""⟩
  lookupIP := fun _ => .ok ["192.0.2.1"]
  lookupCNAME := fun h => .ok (h ++ ".")
  lookupNS := fun _ => .ok ["ns.example."]
  resolveIPAddr := fun _ => .ok "192.0.2.1"
  pingRun := fun _ => ([.idle], none)
  unmarshal := fun _ => ([], none)

def sampleTask (TaskType : String) : Task :=
  ⟨"1", TaskType, "127.0.0.1", 9999⟩

/-- A "udp" task whose address `a:b:9999` has too many colons to resolve. -/
def unresolvableTask : Task :=
  ⟨"1", "udp", "a:b", 9999⟩

/-! ## Helper lemmas -/

theorem len_eq_zero_iff (s : String) : len s = 0 ↔ s = "" := by
  cases s with
  | mk l =>
    cases l with
    | nil => simp [len, String.utf8ByteSize, String.utf8ByteSize.go]
    | cons c cs =>
      have := Char.utf8Size_pos c
      simp [len, String.utf8ByteSize, String.utf8ByteSize.go, String.ext_iff]
      omega

theorem len_PacketBodyMessage : len PacketBodyMessage = 18 := by decide

theorem length_bytesOf_PacketBodyMessage : (bytesOf PacketBodyMessage).length = 18 := by decide

/-! ## The dispatcher -/

theorem Perform_of_ret (env : Env) (task : Task) (w : World) (b : Bool) (w1 : World)
    (h : (if task.TaskType = "tcp" then CheckTCP env task w
      else if task.TaskType = "http" then CheckHTTP env task w
      else if task.TaskType = "udp" then CheckUDP env task w
      else if task.TaskType = "resolve" then CheckDNS env task w
      else if task.TaskType = "icmp" then CheckICMP env task w
      else .ret false w) = .ret b w1) :
    Perform env task w = .ret b ⟨w1.opened, w1.next, w1.trace,
      w1.logged ++ [task.Hostname ++ " over " ++ task.TaskType ++ " is accesesible: "
        ++ (if b then "true" else "false") ++ "\n"], w1.stdout⟩ := by
  simp only [Perform, h]
  rfl

/-- Whenever the checker selected by `TaskType` returns `b`, `Perform` returns
`b`, having made that checker's calls and no others and written the one line
`<hostname> over <TaskType> is accesesible: <b>` to the log; for a `TaskType`
outside the five it makes no call, writes that line with `false` and returns
false. -/
theorem Perform_returns_with_checker (env : Env) (task : Task) (w : World) :
    (task.TaskType = "tcp" → ∀ b w1, CheckTCP env task w = .ret b w1 →
      Perform env task w = .ret b ⟨w1.opened, w1.next, w1.trace,
        w1.logged ++ [task.Hostname ++ " over " ++ "tcp" ++ " is accesesible: "
          ++ (if b then "true" else "false") ++ "\n"], w1.stdout⟩) ∧
    (task.TaskType = "http" → ∀ b w1, CheckHTTP env task w = .ret b w1 →
      Perform env task w = .ret b ⟨w1.opened, w1.next, w1.trace,
        w1.logged ++ [task.Hostname ++ " over " ++ "http" ++ " is accesesible: "
          ++ (if b then "true" else "false") ++ "\n"], w1.stdout⟩) ∧
    (task.TaskType = "udp" → ∀ b w1, CheckUDP env task w = .ret b w1 →
      Perform env task w = .ret b ⟨w1.opened, w1.next, w1.trace,
        w1.logged ++ [task.Hostname ++ " over " ++ "udp" ++ " is accesesible: "
          ++ (if b then "true" else "false") ++ "\n"], w1.stdout⟩) ∧
    (task.TaskType = "resolve" → ∀ b w1, CheckDNS env task w = .ret b w1 →
      Perform env task w = .ret b ⟨w1.opened, w1.next, w1.trace,
        w1.logged ++ [task.Hostname ++ " over " ++ "resolve" ++ " is accesesible: "
          ++ (if b then "true" else "false") ++ "\n"], w1.stdout⟩) ∧
    (task.TaskType = "icmp" → ∀ b w1, CheckICMP env task w = .ret b w1 →
      Perform env task w = .ret b ⟨w1.opened, w1.next, w1.trace,
        w1.logged ++ [task.Hostname ++ " over " ++ "icmp" ++ " is accesesible: "
          ++ (if b then "true" else "false") ++ "\n"], w1.stdout⟩) ∧
    (task.TaskType ∉ ["tcp", "http", "udp", "resolve", "icmp"] →
      Perform env task w = .ret false ⟨w.opened, w.next, w.trace,
        w.logged ++ [task.Hostname ++ " over " ++ task.TaskType
          ++ " is accesesible: " ++ "false" ++ "\n"], w.stdout⟩) := by
  refine ⟨?_, ?_, ?_, ?_, ?_, ?_⟩
  · intro h b w1 hc
    have := Perform_of_ret env task w b w1 (by simp only [h, if_true]; exact hc)
    simpa only [h] using this
  · intro h b w1 hc
    have h1 : ¬ ("http" = "tcp") := by decide
    have := Perform_of_ret env task w b w1 (by simp only [h, h1, if_true, if_false]; exact hc)
    simpa only [h] using this
  · intro h b w1 hc
    have h1 : ¬ ("udp" = "tcp") := by decide
    have h2 : ¬ ("udp" = "http") := by decide
    have := Perform_of_ret env task w b w1
      (by simp only [h, h1, h2, if_true, if_false]; exact hc)
    simpa only [h] using this
  · intro h b w1 hc
    have h1 : ¬ ("resolve" = "tcp") := by decide
    have h2 : ¬ ("resolve" = "http") := by decide
    have h3 : ¬ ("resolve" = "udp") := by decide
    have := Perform_of_ret env task w b w1
      (by simp only [h, h1, h2, h3, if_true, if_false]; exact hc)
    simpa only [h] using this
  · intro h b w1 hc
    have h1 : ¬ ("icmp" = "tcp") := by decide
    have h2 : ¬ ("icmp" = "http") := by decide
    have h3 : ¬ ("icmp" = "udp") := by decide
    have h4 : ¬ ("icmp" = "resolve") := by decide
    have := Perform_of_ret env task w b w1
      (by simp only [h, h1, h2, h3, h4, if_true, if_false]; exact hc)
    simpa only [h] using this
  · intro h
    simp only [List.mem_cons, List.mem_singleton, List.mem_nil_iff, not_or, or_false] at h
    obtain ⟨h1, h2, h3, h4, h5⟩ := h
    have := Perform_of_ret env task w false w
      (by simp only [h1, h2, h3, h4, h5, if_false])
    simpa using this

/-- C1 fails on the code: for a task of type "udp" whose address does not
resolve, or resolves and cannot be dialled, the selected checker `CheckUDP`
panics, and `Perform` panics with it: it returns no outcome and writes no log
line. -/
theorem Perform_panics_on_udp_dial_error (env : Env) (task : Task) (w : World)
    (ht : task.TaskType = "udp")
    (h : (∃ e, env.resolveUDPAddr (task.Hostname ++ ":" ++ FormatUint task.Port) = .error e) ∨
      (∃ a e, env.resolveUDPAddr (task.Hostname ++ ":" ++ FormatUint task.Port) = .ok a ∧
        env.dialUDP a = .error e)) :
    ∃ w1, Perform env task w = .panic nilDeref w1 ∧ w1.logged = w.logged := by
  have h1 : ¬ ("udp" = "tcp") := by decide
  have h2 : ¬ ("udp" = "http") := by decide
  rcases h with ⟨e, he⟩ | ⟨a, e, ha, he⟩
  · simp [Perform, ht, h1, h2, CheckUDP, ResolveUDPAddr, DialUDP, he, World.call]
  · simp [Perform, ht, h1, h2, CheckUDP, ResolveUDPAddr, DialUDP, ha, he, World.call]

/-- The panic of `Perform` at the task of type "udp" with hostname `a:b`. -/
theorem Perform_panics_on_udp_dial_error_witness :
    ∃ w1, Perform deadEnv unresolvableTask World.init = .panic nilDeref w1 ∧
      w1.logged = World.init.logged :=
  Perform_panics_on_udp_dial_error deadEnv unresolvableTask World.init rfl
    (Or.inl ⟨"no such host", rfl⟩)

/-- The same run in full: two calls, the panic, an empty log. -/
theorem Perform_unresolvable_udp :
    Perform deadEnv unresolvableTask World.init
      = .panic nilDeref ⟨[], 0, [.resolveUDPAddr "a:b:9999", .dialUDP none], [], []⟩ := by
  decide

/-- A "tcp" task against a closed port, and a task of the unknown type "ftp":
both return false and log their line. -/
theorem Perform_samples :
    Perform deadEnv (sampleTask "tcp") World.init
        = .ret false ⟨[], 0, [.dialTCP "127.0.0.1:9999"],
            ["127.0.0.1 over tcp is accesesible: false\n"], []⟩ ∧
      Perform deadEnv (sampleTask "ftp") World.init
        = .ret false ⟨[], 0, [], ["127.0.0.1 over ftp is accesesible: false\n"], []⟩ := by
  decide

/-! ## The HTTP checker -/

/-- C2: `CheckHTTP` always returns, and it returns true exactly when the GET
of its URI came back with a response and no error and the status code `s` of
that response has `200 ≤ s < 300`. -/
theorem CheckHTTP_true_iff (env : Env) (task : Task) (w : World) :
    ∃ b w1, CheckHTTP env task w = .ret b w1 ∧
      (b = true ↔ ∃ resp, env.get (requestURI task.Hostname) = .ok resp ∧
        200 ≤ resp.StatusCode ∧ resp.StatusCode < 300) := by
  cases hget : env.get (requestURI task.Hostname) with
  | ok resp => simp [CheckHTTP, httpGet, httpResult, hget, World.acquire]
  | failed r e =>
    cases r with
    | none => simp [CheckHTTP, httpGet, httpResult, hget]
    | some resp => simp [CheckHTTP, httpGet, httpResult, hget]

theorem HasPrefix_iff (s p : String) : HasPrefix s p = true ↔ ∃ t, s = p ++ t := by
  unfold HasPrefix
  rw [List.isPrefixOf_iff_prefix]
  constructor
  · rintro ⟨t, ht⟩
    refine ⟨⟨t⟩, ?_⟩
    apply String.ext
    simpa using ht.symm
  · rintro ⟨t, rfl⟩
    exact ⟨t.toList, by simp⟩

/-- C8 as stated fails: the hostname `http://example.com` carries a scheme
prefix, yet `CheckHTTP` requests `https://http://example.com/`, not the
hostname itself. -/
theorem CheckHTTP_http_scheme_prefixed :
    carriesScheme "http://example.com" = true ∧
      CheckHTTP deadEnv ⟨"1", "http", "http://example.com", 0⟩ World.init
        = .ret false ⟨[], 0, [.get "https://http://example.com/"], [], []⟩ ∧
      "https://http://example.com/" ≠ "http://example.com" := by
  decide

/-- C8, amended: the one call `CheckHTTP` makes is a GET, of the hostname
itself when the hostname starts with `https://`, and of
`"https://" ++ hostname ++ "/"` otherwise. -/
theorem CheckHTTP_request_uri (env : Env) (task : Task) (w : World) :
    ∃ uri b w1, CheckHTTP env task w = .ret b w1 ∧
      w1.trace = w.trace ++ [NetOp.get uri] ∧
      ((∃ t, task.Hostname = "https://" ++ t) → uri = task.Hostname) ∧
      ((¬ ∃ t, task.Hostname = "https://" ++ t) →
        uri = "https://" ++ task.Hostname ++ "/") := by
  have huri : ((∃ t, task.Hostname = "https://" ++ t) →
        requestURI task.Hostname = task.Hostname) ∧
      ((¬ ∃ t, task.Hostname = "https://" ++ t) →
        requestURI task.Hostname = "https://" ++ task.Hostname ++ "/") := by
    constructor
    · intro h
      have := (HasPrefix_iff task.Hostname "https://").2 h
      simp [requestURI, this]
    · intro h
      have : HasPrefix task.Hostname "https://" = false := by
        rw [← Bool.not_eq_true, HasPrefix_iff]
        exact h
      simp [requestURI, this]
  refine ⟨requestURI task.Hostname, ?_⟩
  cases hget : env.get (requestURI task.Hostname) with
  | ok resp =>
    exact ⟨decide (resp.StatusCode ≥ 200) && decide (resp.StatusCode < 300),
      ((w.call (.get (requestURI task.Hostname))).acquire).2,
      by simp [CheckHTTP, httpGet, httpResult, hget, World.acquire],
      by simp [World.acquire, World.call], huri⟩
  | failed r e =>
    cases r with
    | none => simpa [CheckHTTP, httpGet, httpResult, hget, World.call] using huri
    | some resp => simpa [CheckHTTP, httpGet, httpResult, hget, World.call] using huri

/-! ## The DNS checker -/

/-- C4: `CheckDNS` always returns, leaves no resource open, and returns true
exactly when the IP lookup, the CNAME lookup and the NS lookup all come back
without error and each with a non-empty result. -/
theorem CheckDNS_true_iff (env : Env) (task : Task) (w : World) :
    ∃ b w1, CheckDNS env task w = .ret b w1 ∧ w1.opened = w.opened ∧
      (b = true ↔
        (∃ ips, env.lookupIP task.Hostname = .ok ips ∧ ips ≠ []) ∧
        (∃ cname, env.lookupCNAME task.Hostname = .ok cname ∧ cname ≠ "") ∧
        (∃ ns, env.lookupNS task.Hostname = .ok ns ∧ ns ≠ [])) := by
  cases hip : env.lookupIP task.Hostname with
  | error e => simp [CheckDNS, hip, World.call]
  | ok ips =>
    by_cases hips : ips.length = 0
    · have : ips = [] := List.length_eq_zero.mp hips
      simp [CheckDNS, hip, this, World.call]
    · have hips2 : ips ≠ [] := fun h => hips (by simp [h])
      cases hc : env.lookupCNAME task.Hostname with
      | error e => simp [CheckDNS, hip, hips2, hc, World.call]
      | ok cname =>
        by_cases hcn : len cname = 0
        · have : cname = "" := (len_eq_zero_iff cname).1 hcn
          subst this
          simp [CheckDNS, hip, hips2, hc, hcn, World.call]
        · have hcn2 : cname ≠ "" := fun h => hcn ((len_eq_zero_iff cname).2 h)
          cases hn : env.lookupNS task.Hostname with
          | error e => simp [CheckDNS, hip, hips2, hc, hcn, hn, World.call]
          | ok ns =>
            by_cases hns : ns.length = 0
            · have : ns = [] := List.length_eq_zero.mp hns
              simp [CheckDNS, hip, hips2, hc, hcn, hn, this, World.call]
            · have hns2 : ns ≠ [] := fun h => hns (by simp [h])
              simp [CheckDNS, hip, hips2, hc, hcn, hcn2, hn, hns2, World.call]

/-! ## The UDP checker -/

/-- C3 as stated fails: a peer answers with a datagram of 19 bytes, one more
than the sentinel's 18; the read fills the 18-byte buffer, the byte count is
18, and `CheckUDP` returns true. -/
theorem CheckUDP_longer_reply_true :
    (List.replicate 19 65).length = 19 ∧ len PacketBodyMessage = 18 ∧
      CheckUDP (liveEnv (List.replicate 19 65) 200) (sampleTask "udp") World.init
        = .ret true ⟨[], 1,
            [.resolveUDPAddr "127.0.0.1:9999", .dialUDP (some "127.0.0.1:9999"),
              .writeUDP (bytesOf PacketBodyMessage), .readUDP 18, .close 0], [], []⟩ := by
  decide

/-- C3, amended: when the address resolves, the socket opens, the sentinel is
written and the peer's reply datagram `d` is received into the 18-byte
buffer, `CheckUDP` returns true if `d` has at least 18 bytes and false if it
has fewer. -/
theorem CheckUDP_reply (env : Env) (task : Task) (w : World) (a : String) (n : Nat)
    (d : List Nat)
    (hres : env.resolveUDPAddr (task.Hostname ++ ":" ++ FormatUint task.Port) = .ok a)
    (hdial : env.dialUDP a = .ok ())
    (hwrite : env.writeUDP a (bytesOf PacketBodyMessage) = .ok n)
    (hreply : env.replyUDP a = .ok d) :
    ∃ w1, CheckUDP env task w = .ret (decide (18 ≤ d.length)) w1 := by
  have h18 : (bytesOf PacketBodyMessage).length = 18 := length_bytesOf_PacketBodyMessage
  have hlen : len PacketBodyMessage = 18 := len_PacketBodyMessage
  have hmin : (18 = min d.length 18) ↔ 18 ≤ d.length := by omega
  simp [CheckUDP, ResolveUDPAddr, DialUDP, Write, ReadFromUDP, hres, hdial, hwrite, hreply,
    World.acquire, h18, hlen, hmin]

/-- The amended C3 at a peer that echoes 18 bytes. -/
theorem CheckUDP_reply_witness :
    ∃ w1, CheckUDP (liveEnv (List.replicate 18 65) 200) (sampleTask "udp") World.init
      = .ret (decide (18 ≤ (List.replicate 18 65).length)) w1 :=
  CheckUDP_reply (liveEnv (List.replicate 18 65) 200) (sampleTask "udp") World.init
    "127.0.0.1:9999" 18 (List.replicate 18 65) (congrArg Except.ok (by decide)) rfl
    (congrArg Except.ok (by decide)) rfl

/-- C5 fails on the code: when the address does not resolve, or resolves and
the dial fails, `DialUDP` hands back a nil connection and `CheckUDP` panics
at `defer connection.Close()` instead of returning false. -/
theorem CheckUDP_panics_on_dial_error (env : Env) (task : Task) (w : World)
    (h : (∃ e, env.resolveUDPAddr (task.Hostname ++ ":" ++ FormatUint task.Port) = .error e) ∨
      (∃ a e, env.resolveUDPAddr (task.Hostname ++ ":" ++ FormatUint task.Port) = .ok a ∧
        env.dialUDP a = .error e)) :
    ∃ w1, CheckUDP env task w = .panic nilDeref w1 := by
  rcases h with ⟨e, he⟩ | ⟨a, e, ha, he⟩
  · simp [CheckUDP, ResolveUDPAddr, DialUDP, he]
  · simp [CheckUDP, ResolveUDPAddr, DialUDP, ha, he]

/-- The panic of `CheckUDP` on a network where the hostname does not resolve. -/
theorem CheckUDP_panics_on_dial_error_witness :
    ∃ w1, CheckUDP deadEnv unresolvableTask World.init = .panic nilDeref w1 :=
  CheckUDP_panics_on_dial_error deadEnv unresolvableTask World.init
    (Or.inl ⟨"no such host", rfl⟩)

/-- The other four checkers return on every network. -/
theorem other_checkers_return (env : Env) (task : Task) (w : World) :
    (∃ b w1, CheckTCP env task w = .ret b w1) ∧
    (∃ b w1, CheckHTTP env task w = .ret b w1) ∧
    (∃ b w1, CheckDNS env task w = .ret b w1) ∧
    (∃ b w1, CheckICMP env task w = .ret b w1) := by
  refine ⟨?_, ?_, ?_, ?_⟩
  · cases h : env.dialTCP (task.Hostname ++ ":" ++ FormatUint task.Port) <;>
      simp [CheckTCP, Dial, h, World.acquire]
  · cases h : env.get (requestURI task.Hostname) with
    | ok resp => simp [CheckHTTP, httpGet, httpResult, h, World.acquire]
    | failed r e => cases r <;> simp [CheckHTTP, httpGet, httpResult, h]
  · simp only [CheckDNS]
    repeat' split
    all_goals exact ⟨_, _, rfl⟩
  · cases h : env.resolveIPAddr task.Hostname with
    | error e => simp [CheckICMP, h]
    | ok addr =>
      cases h2 : (env.pingRun addr).2 <;> simp [CheckICMP, h, h2]

/-! ## Open resources -/

/-- C10 fails on the code: when the dial succeeds `CheckTCP` returns true and
the connection it opened is still open, so the open resources after the call
are not those before it. -/
theorem CheckTCP_leaves_connection_open (env : Env) (task : Task) (w : World)
    (h : env.dialTCP (task.Hostname ++ ":" ++ FormatUint task.Port) = .ok ()) :
    ∃ w1, CheckTCP env task w = .ret true w1 ∧ w1.opened = w.next :: w.opened ∧
      w1.opened ≠ w.opened := by
  refine ⟨((w.call (.dialTCP (task.Hostname ++ ":" ++ FormatUint task.Port))).acquire).2,
    ?_, ?_, ?_⟩
  · simp [CheckTCP, Dial, h, World.acquire]
  · simp [World.acquire, World.call]
  · intro hEq
    have := congrArg List.length hEq
    simp [World.acquire, World.call] at this

/-- The open connection after `CheckTCP` against a listening port. -/
theorem CheckTCP_leaves_connection_open_witness :
    ∃ w1, CheckTCP (liveEnv [] 200) (sampleTask "tcp") World.init = .ret true w1 ∧
      w1.opened = World.init.next :: World.init.opened ∧ w1.opened ≠ World.init.opened :=
  CheckTCP_leaves_connection_open (liveEnv [] 200) (sampleTask "tcp") World.init rfl

/-- The same for `CheckHTTP`: the body of a response received without error is
never closed. -/
theorem CheckHTTP_leaves_body_open (env : Env) (task : Task) (w : World) (resp : Response)
    (h : env.get (requestURI task.Hostname) = .ok resp) :
    ∃ w1, CheckHTTP env task w
        = .ret (decide (resp.StatusCode ≥ 200) && decide (resp.StatusCode < 300)) w1 ∧
      w1.opened = w.next :: w.opened := by
  simp [CheckHTTP, httpGet, httpResult, h, World.acquire, World.call]

/-- By contrast `CheckUDP` closes its socket on every return. -/
theorem CheckUDP_closes_socket (env : Env) (task : Task) (w : World) (b : Bool) (w1 : World)
    (h : CheckUDP env task w = .ret b w1) : w1.opened = w.opened := by
  unfold CheckUDP ResolveUDPAddr DialUDP Write ReadFromUDP at h
  cases hres : env.resolveUDPAddr (task.Hostname ++ ":" ++ FormatUint task.Port) with
  | error e => simp [hres] at h
  | ok a =>
    cases hdial : env.dialUDP a with
    | error e => simp [hres, hdial] at h
    | ok u =>
      cases hw : env.writeUDP a (bytesOf PacketBodyMessage) with
      | error e =>
        simp [hres, hdial, hw, World.acquire, World.release, World.call] at h
        rw [← h.2]
      | ok n =>
        cases hr : env.replyUDP a with
        | error e =>
          simp [hres, hdial, hw, hr, World.acquire, World.release, World.call] at h
          rw [← h.2]
        | ok d =>
          simp [hres, hdial, hw, hr, World.acquire, World.release, World.call] at h
          rw [← h.2]

/-! ## The ICMP checker -/

theorem foldl_onPing_fst (events : List PingEvent) (s : Bool) (w : World) :
    (events.foldl onPing (s, w)).1 = (s || !events.isEmpty) := by
  induction events generalizing s w with
  | nil => simp
  | cons ev rest ih =>
    cases ev <;> simp [List.foldl_cons, onPing, ih]

/-- C9: `CheckICMP` always returns, and it returns true exactly when the
hostname resolves to an address without error, `Run` returns without error,
and at least one callback (`OnRecv` or `OnIdle`) fired during the run. -/
theorem CheckICMP_true_iff (env : Env) (task : Task) (w : World) :
    ∃ b w1, CheckICMP env task w = .ret b w1 ∧
      (b = true ↔ ∃ addr events, env.resolveIPAddr task.Hostname = .ok addr ∧
        env.pingRun addr = (events, none) ∧ events ≠ []) := by
  cases h : env.resolveIPAddr task.Hostname with
  | error e => simp [CheckICMP, h]
  | ok addr =>
    cases h2 : env.pingRun addr with
    | mk events err =>
      cases err with
      | some e => simp [CheckICMP, h, h2]
      | none =>
        refine ⟨(events.foldl onPing (false, w.call (.resolveIPAddr task.Hostname)
          |>.call (.pingRun addr))).1, (events.foldl onPing (false,
            w.call (.resolveIPAddr task.Hostname) |>.call (.pingRun addr))).2, ?_, ?_⟩
        · simp [CheckICMP, h, h2]
        · rw [foldl_onPing_fst]
          cases events <;> simp [h2]

/-! ## The report -/

/-- C7 as stated fails: for a task of type "task_id" the posted object has the
single key "task_id", and it maps to the outcome, not to the task's id. -/
theorem SaveReport_task_id_type_overwrites :
    SaveReport deadEnv ⟨"1", "task_id", "127.0.0.1", 9999⟩ (.bool false) World.init
        = .ret () ⟨[], 0,
            [.post CreateTaskApiURL "application/json" [("task_id", .bool false)]], [], []⟩ ∧
      GoMap.lookup [("task_id", GoAny.bool false)] "task_id" ≠ some (.str "1") := by
  decide

theorem Marshal_reportOf (task : Task) (result : GoAny) (h : task.TaskType ≠ "task_id") :
    Marshal (reportOf task result) =
      if lessChars "task_id".toList task.TaskType.toList
      then [("task_id", .str task.TaskId), (task.TaskType, result)]
      else [(task.TaskType, result), ("task_id", .str task.TaskId)] := by
  have h2 : ¬ ("task_id" = task.TaskType) := fun e => h e.symm
  simp [Marshal, reportOf, GoMap.set, h2, insertByKey]

theorem Marshal_reportOf_task_id (task : Task) (result : GoAny)
    (h : task.TaskType = "task_id") :
    Marshal (reportOf task result) = [("task_id", result)] := by
  simp [Marshal, reportOf, GoMap.set, h, insertByKey]

/-- C7, amended: for every task and boolean outcome `r`, `SaveReport` posts to
the report URL, as `application/json`, one object.  When the task's type is
not "task_id" the object maps "task_id" to the task's id and the task's type
to `r` and has no other key: it is these two members, in one order or the
other.  When the task's type is "task_id" the object has the single key
"task_id", mapped to `r`. -/
theorem SaveReport_body (env : Env) (task : Task) (r : Bool) (w : World) :
    ∃ body w1, SaveReport env task (.bool r) w = .ret () w1 ∧
      w1.trace = w.trace ++ [NetOp.post CreateTaskApiURL "application/json" body] ∧
      (task.TaskType ≠ "task_id" →
        GoMap.lookup body "task_id" = some (.str task.TaskId) ∧
        GoMap.lookup body task.TaskType = some (.bool r) ∧
        (∀ k, k ∈ GoMap.keys body → k = "task_id" ∨ k = task.TaskType) ∧
        body.length = 2 ∧
        (body = [("task_id", .str task.TaskId), (task.TaskType, .bool r)] ∨
          body = [(task.TaskType, .bool r), ("task_id", .str task.TaskId)])) ∧
      (task.TaskType = "task_id" → body = [("task_id", .bool r)]) := by
  refine ⟨Marshal (reportOf task (.bool r)), ?_⟩
  have hw : ∃ w1, SaveReport env task (.bool r) w = .ret () w1 ∧
      w1.trace = w.trace ++ [NetOp.post CreateTaskApiURL "application/json"
        (Marshal (reportOf task (.bool r)))] := by
    cases hp : env.post CreateTaskApiURL "application/json" (Marshal (reportOf task (.bool r))) with
    | ok resp => simp [SaveReport, httpPost, httpResult, hp, World.acquire, World.call]
    | failed resp e =>
      cases resp <;> simp [SaveReport, httpPost, httpResult, hp, World.call]
  obtain ⟨w1, hw1, hw2⟩ := hw
  refine ⟨w1, hw1, hw2, ?_, ?_⟩
  · intro h
    have h2 : ¬ ("task_id" = task.TaskType) := fun e => h e.symm
    rw [Marshal_reportOf task _ h]
    by_cases hl : lessChars "task_id".toList task.TaskType.toList
    · rw [if_pos hl]
      simp [GoMap.lookup, GoMap.keys, h2, h]
    · rw [if_neg hl]
      simp [GoMap.lookup, GoMap.keys, h2, h]
  · intro h
    exact Marshal_reportOf_task_id task _ h

/-- The amended C7 at the sample task of type "tcp" with outcome false, and at
a task of type "task_id" with outcome true. -/
theorem SaveReport_body_witness :
    (∃ body w1, SaveReport deadEnv (sampleTask "tcp") (.bool false) World.init = .ret () w1 ∧
      w1.trace = World.init.trace ++ [NetOp.post CreateTaskApiURL "application/json" body] ∧
      GoMap.lookup body "task_id" = some (.str "1") ∧
      GoMap.lookup body "tcp" = some (.bool false) ∧
      (∀ k, k ∈ GoMap.keys body → k = "task_id" ∨ k = "tcp") ∧
      body.length = 2) ∧
    (∃ w1, SaveReport deadEnv (sampleTask "task_id") (.bool true) World.init = .ret () w1 ∧
      w1.trace = World.init.trace ++
        [NetOp.post CreateTaskApiURL "application/json" [("task_id", .bool true)]]) := by
  constructor
  · obtain ⟨body, w1, h1, h2, h3, _⟩ :=
      SaveReport_body deadEnv (sampleTask "tcp") false World.init
    have h := h3 (by decide)
    exact ⟨body, w1, h1, h2, h.1, h.2.1, h.2.2.1, h.2.2.2.1⟩
  · obtain ⟨body, w1, h1, h2, _, h4⟩ :=
      SaveReport_body deadEnv (sampleTask "task_id") true World.init
    have h := h4 rfl
    subst h
    exact ⟨w1, h1, h2⟩

/-- The posted object for task id "1", type "tcp", outcome false: the members
of `{"task_id":"1","tcp":false}`, in that order. -/
theorem SaveReport_sample_body :
    SaveReport deadEnv (sampleTask "tcp") (.bool false) World.init
      = .ret () ⟨[], 0, [.post CreateTaskApiURL "application/json"
          [("task_id", .str "1"), ("tcp", .bool false)]], [], []⟩ := by
  decide

/-! ## Fetching the batch and the run loop -/

/-- C6 fails on the code: when the GET of the task list fails with no
response, `FetchTasks` writes "No response from request" and then panics at
`defer response.Body.Close()`, and `main` panics with it: no empty batch is
returned. -/
theorem FetchTasks_panics_without_response (env : Env) (w : World) (e : String)
    (h : env.get TasksApiURL = .failed none e) :
    FetchTasks env w
        = .panic nilDeref ((w.call (.get TasksApiURL)).log "No response from request\n") ∧
      main env w
        = .panic nilDeref ((w.call (.get TasksApiURL)).log "No response from request\n") := by
  have hf : FetchTasks env w
      = .panic nilDeref ((w.call (.get TasksApiURL)).log "No response from request\n") := by
    simp [FetchTasks, httpGet, httpResult, h]
  exact ⟨hf, by simp [main, hf]⟩

/-- The panic of `FetchTasks` and `main` on a network where nothing answers. -/
theorem FetchTasks_panics_without_response_witness :
    FetchTasks deadEnv World.init
        = .panic nilDeref
            ((World.init.call (.get TasksApiURL)).log "No response from request\n") ∧
      main deadEnv World.init
        = .panic nilDeref
            ((World.init.call (.get TasksApiURL)).log "No response from request\n") :=
  FetchTasks_panics_without_response deadEnv World.init "connection refused" rfl

/-- When a response arrives, `FetchTasks` returns whatever `json.Unmarshal`
left in `result`, error or not, and closes the body. -/
theorem FetchTasks_returns_unmarshalled (env : Env) (w : World) (resp : Response)
    (h : env.get TasksApiURL = .ok resp) :
    ∃ w1, FetchTasks env w = .ret (env.unmarshal resp.Body).1 w1 ∧ w1.opened = w.opened := by
  cases hu : (env.unmarshal resp.Body).2 <;>
    simp [FetchTasks, httpGet, httpResult, h, hu, ReadAll, closeBody, World.acquire,
      World.release, World.call, World.log]

/-- An empty batch makes `main` perform no check and post no report. -/
theorem main_empty_batch (env : Env) (w w1 : World) (h : FetchTasks env w = .ret [] w1) :
    main env w = .ret () w1 := by
  simp [main, h, runTasks]

end Spectet
